import Mathlib

/-!
Shallow embedding of `scripts/sync-ultravox-agents.py`.

The script keeps Ultravox voice-agent templates in sync with client records:
it detects callable tools from the prompt text (`detect_tools_from_prompt`),
builds the desired tool-configuration list (`get_tools_for_client`), compares
the desired state against the remotely fetched agent (`sync_agent`), and
aggregates per-record outcomes into a process exit status (`mainRun`,
mirroring `main`).

Modelling conventions:
- Python JSON values are modelled by `JVal`; the script's
  `json.dumps(x, sort_keys=True) != json.dumps(y, sort_keys=True)` comparison
  is modelled by structural inequality of key-sorted canonical forms
  (`toolsChanged`), since `json.dumps` with sorted keys is injective on the
  canonical forms.  Keys are sorted by Unicode code point, as Python sorts
  `str` keys.
- Python truthiness on optional strings (`if not agent_id:` etc.) is
  modelled by `truthyS`.
- The iteration order of the Python `set` `enabled_tools` is not defined by
  the language (string hashing is randomized per process), so
  `get_tools_for_client` takes the enumeration order as an explicit `enum`
  argument; `validEnum` says a list is a legitimate enumeration of the set.
- The two external collaborators (Ultravox HTTP API, Supabase) are modelled
  by explicit inputs (`FetchResult`, success flags) and by an emitted trace
  of write calls (`Effect`).
-/

/-- JSON values as produced by `json.loads` / consumed by `json.dumps`.
Numbers are modelled as integers (the script only produces `int` values). -/
inductive JVal where
  | str (s : String) : JVal
  | num (n : Int) : JVal
  | arr (l : List JVal) : JVal
  | obj (d : List (String × JVal)) : JVal

mutual
/-- Structural equality test for `JVal` (decidable equality helper). -/
def jeq : JVal → JVal → Bool
  | .str a, .str b => a == b
  | .num a, .num b => a == b
  | .arr a, .arr b => jeqList a b
  | .obj a, .obj b => jeqPairs a b
  | _, _ => false
def jeqList : List JVal → List JVal → Bool
  | [], [] => true
  | a :: as, b :: bs => jeq a b && jeqList as bs
  | _, _ => false
def jeqPairs : List (String × JVal) → List (String × JVal) → Bool
  | [], [] => true
  | p :: ps, q :: qs => p.1 == q.1 && jeq p.2 q.2 && jeqPairs ps qs
  | _, _ => false
end

mutual
theorem jeq_iff : ∀ (a b : JVal), jeq a b = true ↔ a = b
  | .str a, .str b => by simp [jeq]
  | .str _, .num _ => by simp [jeq]
  | .str _, .arr _ => by simp [jeq]
  | .str _, .obj _ => by simp [jeq]
  | .num _, .str _ => by simp [jeq]
  | .num a, .num b => by simp [jeq]
  | .num _, .arr _ => by simp [jeq]
  | .num _, .obj _ => by simp [jeq]
  | .arr _, .str _ => by simp [jeq]
  | .arr _, .num _ => by simp [jeq]
  | .arr a, .arr b => by simp [jeq, jeqList_iff a b]
  | .arr _, .obj _ => by simp [jeq]
  | .obj _, .str _ => by simp [jeq]
  | .obj _, .num _ => by simp [jeq]
  | .obj _, .arr _ => by simp [jeq]
  | .obj a, .obj b => by simp [jeq, jeqPairs_iff a b]
theorem jeqList_iff : ∀ (a b : List JVal), jeqList a b = true ↔ a = b
  | [], [] => by simp [jeqList]
  | [], _ :: _ => by simp [jeqList]
  | _ :: _, [] => by simp [jeqList]
  | a :: as, b :: bs => by
      simp [jeqList, jeq_iff a b, jeqList_iff as bs]
theorem jeqPairs_iff : ∀ (a b : List (String × JVal)), jeqPairs a b = true ↔ a = b
  | [], [] => by simp [jeqPairs]
  | [], _ :: _ => by simp [jeqPairs]
  | _ :: _, [] => by simp [jeqPairs]
  | p :: ps, q :: qs => by
      have h2 := jeq_iff p.2 q.2
      have h3 := jeqPairs_iff ps qs
      constructor
      · intro h
        simp only [jeqPairs, Bool.and_eq_true, beq_iff_eq] at h
        obtain ⟨⟨h1, hv⟩, hr⟩ := h
        have hv2 := h2.mp hv
        have hr2 := h3.mp hr
        cases p
        cases q
        simp_all
      · intro h
        injection h with hpq hrest
        subst hpq
        subst hrest
        simp [jeqPairs, h2, h3]
end

instance : DecidableEq JVal := fun a b => decidable_of_iff (jeq a b = true) (jeq_iff a b)

/-- Lexicographic order on character lists by Unicode code point: the order
`sorted()` uses on Python `str`, hence the key order of
`json.dumps(..., sort_keys=True)`. -/
def lexLe : List Char → List Char → Bool
  | [], _ => true
  | _ :: _, [] => false
  | a :: as, b :: bs =>
    if a.toNat < b.toNat then true
    else if b.toNat < a.toNat then false
    else lexLe as bs

theorem lexLe_total : ∀ (a b : List Char), lexLe a b = true ∨ lexLe b a = true
  | [], _ => .inl rfl
  | _ :: _, [] => .inr rfl
  | a :: as, b :: bs => by
      by_cases hab : a.toNat < b.toNat
      · left
        simp [lexLe, hab]
      · by_cases hba : b.toNat < a.toNat
        · right
          simp [lexLe, hba]
        · cases lexLe_total as bs with
          | inl h => left; simp [lexLe, hab, hba, h]
          | inr h => right; simp [lexLe, hab, hba, h]

theorem lexLe_trans : ∀ {a b c : List Char},
    lexLe a b = true → lexLe b c = true → lexLe a c = true
  | [], _, _, _, _ => rfl
  | _ :: _, [], _, h1, _ => by simp [lexLe] at h1
  | _ :: _, _ :: _, [], _, h2 => by simp [lexLe] at h2
  | a :: as, b :: bs, c :: cs, h1, h2 => by
      by_cases hab : a.toNat < b.toNat
      · by_cases hbc : b.toNat < c.toNat
        · have hac : a.toNat < c.toNat := Nat.lt_trans hab hbc
          simp [lexLe, hac]
        · by_cases hcb : c.toNat < b.toNat
          · simp [lexLe, hbc, hcb] at h2
          · have hbceq : b.toNat = c.toNat := by omega
            have hac : a.toNat < c.toNat := hbceq ▸ hab
            simp [lexLe, hac]
      · by_cases hba : b.toNat < a.toNat
        · simp [lexLe, hab, hba] at h1
        · have habeq : a.toNat = b.toNat := by omega
          have h1r : lexLe as bs = true := by simpa [lexLe, hab, hba] using h1
          by_cases hbc : b.toNat < c.toNat
          · have hac : a.toNat < c.toNat := habeq ▸ hbc
            simp [lexLe, hac]
          · by_cases hcb : c.toNat < b.toNat
            · simp [lexLe, hbc, hcb] at h2
            · have h2r : lexLe bs cs = true := by simpa [lexLe, hbc, hcb] using h2
              have hnac : ¬ a.toNat < c.toNat := by omega
              have hnca : ¬ c.toNat < a.toNat := by omega
              simpa [lexLe, hnac, hnca] using lexLe_trans h1r h2r

theorem lexLe_antisymm : ∀ {a b : List Char},
    lexLe a b = true → lexLe b a = true → a = b
  | [], [], _, _ => rfl
  | [], _ :: _, _, h2 => by simp [lexLe] at h2
  | _ :: _, [], h1, _ => by simp [lexLe] at h1
  | a :: as, b :: bs, h1, h2 => by
      by_cases hab : a.toNat < b.toNat
      · have hnba : ¬ b.toNat < a.toNat := by omega
        simp [lexLe, hnba, hab] at h2
      · by_cases hba : b.toNat < a.toNat
        · simp [lexLe, hab, hba] at h1
        · have habeq : a.toNat = b.toNat := by omega
          have hchar : a = b := Char.ext (UInt32.ext habeq)
          have h1r : lexLe as bs = true := by simpa [lexLe, hab, hba] using h1
          have h2r : lexLe bs as = true := by simpa [lexLe, hba, hab] using h2
          rw [hchar, lexLe_antisymm h1r h2r]

/-- Key order on object entries, used when canonicalizing a JSON object. -/
def keyLE (x y : String × JVal) : Prop := lexLe x.1.data y.1.data = true

instance : DecidableRel keyLE :=
  fun x y => inferInstanceAs (Decidable (lexLe x.1.data y.1.data = true))

instance : IsTotal (String × JVal) keyLE :=
  ⟨fun x y => lexLe_total x.1.data y.1.data⟩

instance : IsTrans (String × JVal) keyLE :=
  ⟨fun _ _ _ h1 h2 => lexLe_trans h1 h2⟩

/-- Strict key order: at most one of `keyLT x y` / `keyLT y x` holds, which
makes key-sorted duplicate-free association lists unique per permutation
class. -/
def keyLT (x y : String × JVal) : Prop := keyLE x y ∧ x.1 ≠ y.1

instance : IsAntisymm (String × JVal) keyLT :=
  ⟨fun x y h1 h2 =>
    (h1.2 (String.ext (lexLe_antisymm h1.1 h2.1))).elim⟩

mutual
/-- Canonical form of a JSON value: object keys sorted recursively.  Two
values have the same `json.dumps(..., sort_keys=True)` output exactly when
their canonical forms coincide. -/
def canon : JVal → JVal
  | .str s => .str s
  | .num n => .num n
  | .arr l => .arr (canonList l)
  | .obj d => .obj (List.insertionSort keyLE (canonPairs d))
def canonList : List JVal → List JVal
  | [] => []
  | v :: vs => canon v :: canonList vs
def canonPairs : List (String × JVal) → List (String × JVal)
  | [] => []
  | p :: ps => (p.1, canon p.2) :: canonPairs ps
end

theorem canonList_eq_map : ∀ (l : List JVal), canonList l = l.map canon
  | [] => rfl
  | v :: vs => by simp [canonList, canonList_eq_map vs]

theorem canonPairs_eq_map :
    ∀ (d : List (String × JVal)), canonPairs d = d.map (fun p => (p.1, canon p.2))
  | [] => rfl
  | p :: ps => by simp [canonPairs, canonPairs_eq_map ps]

/-- Model of line 210 of the script:
`json.dumps(current_tools, sort_keys=True) != json.dumps(standard_tools, sort_keys=True)`. -/
def toolsChanged (current_tools standard_tools : List JVal) : Bool :=
  !(jeq (canon (.arr current_tools)) (canon (.arr standard_tools)))

theorem toolsChanged_eq_false_iff (cur std : List JVal) :
    toolsChanged cur std = false ↔ canon (.arr cur) = canon (.arr std) := by
  simp [toolsChanged, jeq_iff]

/-- A sort by key is insensitive to the input permutation once the keys are
duplicate-free. -/
theorem insertionSortKey_perm_eq {l1 l2 : List (String × JVal)}
    (hp : l1.Perm l2) (hn : (l1.map Prod.fst).Nodup) :
    List.insertionSort keyLE l1 = List.insertionSort keyLE l2 := by
  have hs1 := List.sorted_insertionSort keyLE l1
  have hs2 := List.sorted_insertionSort keyLE l2
  have hperm : (List.insertionSort keyLE l1).Perm (List.insertionSort keyLE l2) :=
    (List.perm_insertionSort keyLE l1).trans (hp.trans (List.perm_insertionSort keyLE l2).symm)
  have hn1 : ((List.insertionSort keyLE l1).map Prod.fst).Nodup :=
    (((List.perm_insertionSort keyLE l1).map Prod.fst).symm).nodup hn
  have hn2 : ((List.insertionSort keyLE l2).map Prod.fst).Nodup :=
    ((hperm.map Prod.fst)).nodup hn1
  have hne1 : List.Pairwise (fun x y : String × JVal => x.1 ≠ y.1)
      (List.insertionSort keyLE l1) := List.pairwise_map.mp hn1
  have hne2 : List.Pairwise (fun x y : String × JVal => x.1 ≠ y.1)
      (List.insertionSort keyLE l2) := List.pairwise_map.mp hn2
  have hlt1 : List.Sorted keyLT (List.insertionSort keyLE l1) :=
    (hs1.and hne1).imp fun h => h
  have hlt2 : List.Sorted keyLT (List.insertionSort keyLE l2) :=
    (hs2.and hne2).imp fun h => h
  exact List.eq_of_perm_of_sorted hperm hlt1 hlt2

/-- Canonicalization identifies two objects whose entry lists are
permutations of one another (with duplicate-free keys). -/
theorem canon_obj_perm {d1 d2 : List (String × JVal)}
    (hp : d1.Perm d2) (hn : (d1.map Prod.fst).Nodup) :
    canon (.obj d1) = canon (.obj d2) := by
  have hmp : (canonPairs d1).Perm (canonPairs d2) := by
    rw [canonPairs_eq_map, canonPairs_eq_map]
    exact hp.map _
  have hkeys : ((canonPairs d1).map Prod.fst).Nodup := by
    rw [canonPairs_eq_map, List.map_map]
    exact hn
  simp only [canon]
  rw [insertionSortKey_perm_eq hmp hkeys]

/-- The static tool catalog `ULTRAVOX_TOOLS`: canonical tool name to durable
Ultravox tool id, in source (dict insertion) order. -/
def ULTRAVOX_TOOLS : List (String × String) :=
  [("transferFromAiTriageWithMetadata", "c5835b78-7e5f-4515-a9fa-1d91c61fceea"),
   ("coldTransfer", "2fff509d-273f-414e-91ff-aa933435a545"),
   ("collectNameNumberConcernPetName", "4e0b0313-df50-4c18-aba1-bbf4acbfff88"),
   ("leaveVoicemail", "8721c74d-af3f-4dfa-a736-3bc170ef917c"),
   ("queryCorpus", "84a31bac-5c1b-41c3-9058-f81acb7ffaa7"),
   ("playDtmfSounds", "3e9489b1-25de-4032-bb3d-f7b84765ec93"),
   ("hangUp", "56294126-5a7d-4948-b67d-3b7e13d55ea7")]

/-- The `CORE_TOOLS` list: tools always enabled regardless of prompt content. -/
def CORE_TOOLS : List String :=
  ["transferFromAiTriageWithMetadata", "hangUp"]

/-- Does `needle` start `hay`? (helper for the substring test). -/
def startsWithCh : List Char → List Char → Bool
  | [], _ => true
  | _ :: _, [] => false
  | a :: as, b :: bs => a == b && startsWithCh as bs

/-- Substring containment on character lists, the semantics of Python
`needle in hay` on strings. -/
def containsCh (needle : List Char) : List Char → Bool
  | [] => needle.isEmpty
  | b :: bs => startsWithCh needle (b :: bs) || containsCh needle bs

/-- Python `needle in hay` on `str` values. -/
def strContains (hay needle : String) : Bool :=
  containsCh needle.data hay.data

/-- `needle` occurs contiguously inside `hay`. -/
def occursIn (needle hay : List Char) : Prop :=
  ∃ pre post, hay = pre ++ needle ++ post

theorem startsWithCh_iff : ∀ (n h : List Char),
    startsWithCh n h = true ↔ ∃ t, h = n ++ t
  | [], h => by simp [startsWithCh]
  | a :: as, [] => by simp [startsWithCh]
  | a :: as, b :: bs => by
      simp only [startsWithCh, Bool.and_eq_true, beq_iff_eq, startsWithCh_iff as bs]
      constructor
      · rintro ⟨rfl, t, rfl⟩
        exact ⟨t, rfl⟩
      · rintro ⟨t, ht⟩
        injection ht with h1 h2
        exact ⟨h1.symm, t, h2⟩

theorem containsCh_iff : ∀ (n h : List Char),
    containsCh n h = true ↔ occursIn n h
  | n, [] => by
      simp only [containsCh, occursIn, List.isEmpty_iff]
      constructor
      · intro hn
        exact ⟨[], [], by simp [hn]⟩
      · rintro ⟨pre, post, hp⟩
        rcases List.append_eq_nil.mp (List.append_eq_nil.mp hp.symm).1 with ⟨-, hn⟩
        exact hn
  | n, b :: bs => by
      simp only [containsCh, Bool.or_eq_true, startsWithCh_iff, containsCh_iff n bs,
        occursIn]
      constructor
      · rintro (⟨t, ht⟩ | ⟨pre, post, hp⟩)
        · exact ⟨[], t, by simpa using ht⟩
        · exact ⟨b :: pre, post, by simp [hp]⟩
      · rintro ⟨pre, post, hp⟩
        cases pre with
        | nil =>
            left
            exact ⟨post, by simpa using hp⟩
        | cons p ps =>
            right
            injection hp with h1 h2
            exact ⟨ps, post, h2⟩

/-- A row of the `clients` table as the script reads it (`client_data.get(...)`).
`none` stands for an absent key or SQL `NULL`. -/
structure ClientData where
  id : Option String
  name : Option String
  system_prompt : Option String
  agent_voice : Option String
  ultravox_agent_id : Option String
  corpus_id : Option String
  corpus_max_results : Option Int
deriving DecidableEq

/-- Python truthiness of an optional string: `None` and the empty string are falsy. -/
def truthyS : Option String → Bool
  | none => false
  | some s => !s.isEmpty

/-- Python `x or default` on an optional string. -/
def pyOr (v : Option String) (default : String) : String :=
  match v with
  | none => default
  | some s => if s.isEmpty then default else s

/-- `detect_tools_from_prompt`: the set of catalog tool names occurring as a
substring of the prompt.  A Python `set`; modelled as a `Finset`. -/
def detect_tools_from_prompt (system_prompt : String) : Finset String :=
  ((ULTRAVOX_TOOLS.map Prod.fst).filter (fun tool_name => strContains system_prompt tool_name)).toFinset

/-- The `enabled_tools` set of `get_tools_for_client`: core tools united with
the tools detected from the prompt. -/
def enabledToolSet (client_data : ClientData) : Finset String :=
  CORE_TOOLS.toFinset ∪ detect_tools_from_prompt (client_data.system_prompt.getD "")

/-- `enum` is a possible iteration order of the Python set `enabled_tools`:
each element exactly once, no guarantee on order. -/
def validEnum (client_data : ClientData) (enum : List String) : Prop :=
  enum.Nodup ∧ enum.toFinset = enabledToolSet client_data

instance (c : ClientData) (e : List String) : Decidable (validEnum c e) :=
  inferInstanceAs (Decidable (_ ∧ _))

/-- One iteration of the `for tool_name in enabled_tools` loop of
`get_tools_for_client`: `none` when the loop `continue`s (unknown tool, or
`queryCorpus` without a truthy `corpus_id`), otherwise the JSON dict appended
to `tools`. -/
def toolConfigFor (client_data : ClientData) (tool_name : String) : Option JVal :=
  match ULTRAVOX_TOOLS.lookup tool_name with
  | none => none
  | some tool_id =>
    if tool_name = "queryCorpus" then
      match client_data.corpus_id with
      | none => none
      | some corpus_id =>
        if corpus_id.isEmpty then none
        else
          some (.obj [("toolId", .str tool_id),
                      ("parameterOverrides",
                        .obj [("corpus_id", .str corpus_id),
                              ("max_results", .num (client_data.corpus_max_results.getD 5))])])
    else
      some (.obj [("toolId", .str tool_id)])

/-- `get_tools_for_client`: build the Ultravox tool-configuration list.
`enum` is the iteration order of the `enabled_tools` set (see `validEnum`). -/
def get_tools_for_client (client_data : ClientData) (enum : List String) : List JVal :=
  enum.filterMap (toolConfigFor client_data)

/-- The agent object fetched from Ultravox, restricted to the fields the
script reads: top-level `systemPrompt` and `voice`, and
`callTemplate.selectedTools`.  `none` stands for an absent key. -/
structure RemoteAgent where
  systemPrompt : Option String
  voice : Option String
  selectedTools : Option (List JVal)
deriving DecidableEq

/-- Result of `get_ultravox_agent`: the agent JSON on HTTP 200, `notFound` on
404 (the function returns `None`), or a raised exception on any other
status. -/
inductive FetchResult where
  | ok (agent : RemoteAgent) : FetchResult
  | notFound : FetchResult
  | httpError (msg : String) : FetchResult
deriving DecidableEq

/-- A write call made to an external collaborator during `sync_agent`:
a PATCH of the Ultravox agent, or the Supabase sync-status update. -/
inductive Effect where
  | patch (agent_id system_prompt voice : String) (tools : Option (List JVal)) : Effect
  | dbWrite (client_id : String) : Effect
deriving DecidableEq

/-- The `status` field of the dict `sync_agent` returns. -/
inductive SyncStatus where
  | skipped (reason : String) : SyncStatus
  | error (reason : String) : SyncStatus
  | already_synced : SyncStatus
  | would_update : SyncStatus
  | success : SyncStatus
deriving DecidableEq

/-- Outcome of `sync_agent` together with the trace of write calls it made
and the warnings it printed about the storage write-back. -/
structure SyncResult where
  status : SyncStatus
  effects : List Effect
  warnings : List String
deriving DecidableEq

/-- `sync_agent`: per-record sync. Inputs beyond the record: `dry_run`; the
set-iteration order `enum` (see `validEnum`); the platform response `fetch`;
whether the PATCH succeeds (`patchOk`, a failed PATCH raises and is caught);
whether the Supabase write-back succeeds (`dbOk`). -/
def sync_agent (client_data : ClientData) (dry_run : Bool) (enum : List String)
    (fetch : FetchResult) (patchOk dbOk : Bool) : SyncResult :=
  if !(truthyS client_data.ultravox_agent_id) then
    ⟨.skipped "no_agent_id", [], []⟩
  else if !(truthyS client_data.system_prompt) then
    ⟨.skipped "no_system_prompt", [], []⟩
  else
    let agent_id := client_data.ultravox_agent_id.getD ""
    let system_prompt := client_data.system_prompt.getD ""
    let agent_voice := pyOr client_data.agent_voice "Jessica"
    match fetch with
    | .notFound => ⟨.error "agent_not_found", [], []⟩
    | .httpError msg => ⟨.error msg, [], []⟩
    | .ok current_agent =>
      let current_prompt := current_agent.systemPrompt.getD ""
      let current_voice := current_agent.voice.getD ""
      let current_tools := current_agent.selectedTools.getD []
      let standard_tools := get_tools_for_client client_data enum
      let prompt_changed := current_prompt != system_prompt
      let voice_changed := current_voice != agent_voice
      let tools_changed := toolsChanged current_tools standard_tools
      if !prompt_changed && !voice_changed && !tools_changed then
        ⟨.already_synced, [], []⟩
      else if dry_run then
        ⟨.would_update, [], []⟩
      else
        let patchEff := Effect.patch agent_id system_prompt agent_voice
          (if tools_changed then some standard_tools else none)
        if !patchOk then
          ⟨.error "update_failed", [patchEff], []⟩
        else if truthyS client_data.id then
          if dbOk then
            ⟨.success, [patchEff, .dbWrite (client_data.id.getD "")], []⟩
          else
            ⟨.success, [patchEff, .dbWrite (client_data.id.getD "")],
              ["Synced to Ultravox but failed to update database"]⟩
        else
          ⟨.success, [patchEff], []⟩

/-- The per-outcome counters of `main`. -/
structure Counts where
  success : Nat
  already_synced : Nat
  skipped : Nat
  errors : Nat
  would_update : Nat
deriving DecidableEq

/-- One step of the tally loop in `main` (the `if/elif/else` chain on
the status field of the result). -/
def tallyStep (acc : Counts) (s : SyncStatus) : Counts :=
  match s with
  | .success => ⟨acc.success + 1, acc.already_synced, acc.skipped, acc.errors, acc.would_update⟩
  | .already_synced => ⟨acc.success, acc.already_synced + 1, acc.skipped, acc.errors, acc.would_update⟩
  | .skipped _ => ⟨acc.success, acc.already_synced, acc.skipped + 1, acc.errors, acc.would_update⟩
  | .would_update => ⟨acc.success, acc.already_synced, acc.skipped, acc.errors, acc.would_update + 1⟩
  | .error _ => ⟨acc.success, acc.already_synced, acc.skipped, acc.errors + 1, acc.would_update⟩

/-- Aggregate outcome counts over the processed records. -/
def tally (outcomes : List SyncStatus) : Counts :=
  outcomes.foldl tallyStep ⟨0, 0, 0, 0, 0⟩

/-- Is a status a per-record `error` outcome? -/
def isErrorStatus : SyncStatus → Bool
  | .error _ => true
  | _ => false

/-- Per-record environment for a batch run: the set-iteration order, the
platform fetch response, and the two success flags. -/
structure RecordEnv where
  enum : List String
  fetch : FetchResult
  patchOk : Bool
  dbOk : Bool

/-- The tail of `main` after fetching the candidate records: an empty
candidate set exits 1 immediately with nothing processed; otherwise every
record is processed and the exit code is 0 exactly when no error outcome
occurred.  Returns (exit code, number of processed records). -/
def mainRun (clients : List ClientData) (dry_run : Bool)
    (env : ClientData → RecordEnv) : Nat × Nat :=
  if clients.isEmpty then
    (1, 0)
  else
    let outcomes := clients.map fun c =>
      (sync_agent c dry_run (env c).enum (env c).fetch (env c).patchOk (env c).dbOk).status
    let results := tally outcomes
    ((if results.errors = 0 then 0 else 1), clients.length)

/-- The candidate filter `main` builds from the command-line arguments. -/
inductive RecordFilter where
  | byAgentId (v : String) : RecordFilter
  | byClientName (v : String) : RecordFilter
  | byClientId (v : String) : RecordFilter
deriving DecidableEq

/-- The `if args.agent_id / elif args.client_name / elif args.client_id`
chain of `main`: which equality filter is applied to the `clients` query. -/
def selectFilter (agent_id client_name client_id : Option String) : Option RecordFilter :=
  if truthyS agent_id then
    some (.byAgentId (agent_id.getD ""))
  else if truthyS client_name then
    some (.byClientName (client_name.getD ""))
  else if truthyS client_id then
    some (.byClientId (client_id.getD ""))
  else
    none

theorem toolsChanged_self (l : List JVal) : toolsChanged l l = false := by
  simp [toolsChanged, jeq_iff]

/-- A successful association-list lookup witnesses membership. -/
theorem lookup_mem : ∀ (l : List (String × String)) (a b : String),
    l.lookup a = some b → (a, b) ∈ l
  | [], a, b => by simp [List.lookup]
  | (k, v) :: t, a, b => by
      intro h
      cases hk : a == k with
      | true =>
          have hak : a = k := by simpa using hk
          have hv : v = b := by
            simpa [List.lookup, hk] using h
          simp [hak, hv]
      | false =>
          have h2 : List.lookup a t = some b := by
            simpa [List.lookup, hk] using h
          exact List.mem_cons_of_mem _ (lookup_mem t a b h2)

/-- The Ultravox tool id of `queryCorpus`. -/
def queryCorpusId : String := "84a31bac-5c1b-41c3-9058-f81acb7ffaa7"

/-- Only the catalog entry named `queryCorpus` carries the `queryCorpus`
tool id. -/
theorem catalog_id_ne_queryCorpus {name tid : String}
    (h : ULTRAVOX_TOOLS.lookup name = some tid) (hname : name ≠ "queryCorpus") :
    tid ≠ queryCorpusId := by
  have hm := lookup_mem _ _ _ h
  simp only [ULTRAVOX_TOOLS, List.mem_cons, List.not_mem_nil, or_false, Prod.mk.injEq] at hm
  rcases hm with ⟨h1, h2⟩ | ⟨h1, h2⟩ | ⟨h1, h2⟩ | ⟨h1, h2⟩ | ⟨h1, h2⟩ | ⟨h1, h2⟩ | ⟨h1, h2⟩
  · rw [h2]; decide
  · rw [h2]; decide
  · rw [h2]; decide
  · rw [h2]; decide
  · exact absurd h1 hname
  · rw [h2]; decide
  · rw [h2]; decide

/-- Two JSON values are entry reorderings of each other: identical except
that, when both are objects with duplicate-free keys, their entry lists may
be arbitrary permutations of one another. -/
def entryReorder : JVal → JVal → Prop
  | .obj d1, .obj d2 => d1.Perm d2 ∧ (d1.map Prod.fst).Nodup
  | a, b => a = b

theorem canon_entryReorder : ∀ {a b : JVal}, entryReorder a b → canon a = canon b
  | .obj d1, .obj d2, h => canon_obj_perm h.1 h.2
  | .str _, _, h => h ▸ rfl
  | .num _, _, h => h ▸ rfl
  | .arr _, _, h => h ▸ rfl
  | .obj _, .str _, h => h ▸ rfl
  | .obj _, .num _, h => h ▸ rfl
  | .obj _, .arr _, h => h ▸ rfl

/-- C1, amended.  The claim as stated is false (see the counterexample):
the engine's comparison `json.dumps(..., sort_keys=True)` canonicalizes only
the key order inside each JSON object, not the order of list entries.  What
holds: if the two tool lists are equal entry-by-entry up to reordering the
keys of corresponding objects (keys duplicate-free), the tools diff is
false; permuting the list entries themselves is not canonicalized away. -/
theorem c1_tools_diff_key_order_invariant {cur std : List JVal}
    (h : List.Forall₂ entryReorder cur std) : toolsChanged cur std = false := by
  rw [toolsChanged_eq_false_iff]
  simp only [canon, canonList_eq_map]
  congr 1
  induction h with
  | nil => rfl
  | cons hab htl ih =>
      rw [List.map_cons, List.map_cons, canon_entryReorder hab, ih]

/-- C1 witness: a concrete tool configuration whose two keys are swapped is
not reported as a diff. -/
theorem c1_tools_diff_key_order_invariant_witness :
    List.Forall₂ entryReorder
      [JVal.obj [("toolId", .str "84a31bac-5c1b-41c3-9058-f81acb7ffaa7"),
                 ("parameterOverrides", .obj [("corpus_id", .str "corpus-1")])]]
      [JVal.obj [("parameterOverrides", .obj [("corpus_id", .str "corpus-1")]),
                 ("toolId", .str "84a31bac-5c1b-41c3-9058-f81acb7ffaa7")]] ∧
    toolsChanged
      [JVal.obj [("toolId", .str "84a31bac-5c1b-41c3-9058-f81acb7ffaa7"),
                 ("parameterOverrides", .obj [("corpus_id", .str "corpus-1")])]]
      [JVal.obj [("parameterOverrides", .obj [("corpus_id", .str "corpus-1")]),
                 ("toolId", .str "84a31bac-5c1b-41c3-9058-f81acb7ffaa7")]] = false := by
  have h : List.Forall₂ entryReorder
      [JVal.obj [("toolId", .str "84a31bac-5c1b-41c3-9058-f81acb7ffaa7"),
                 ("parameterOverrides", .obj [("corpus_id", .str "corpus-1")])]]
      [JVal.obj [("parameterOverrides", .obj [("corpus_id", .str "corpus-1")]),
                 ("toolId", .str "84a31bac-5c1b-41c3-9058-f81acb7ffaa7")]] := by
    refine List.Forall₂.cons ?_ List.Forall₂.nil
    exact ⟨List.Perm.swap _ _ _, by decide⟩
  exact ⟨h, c1_tools_diff_key_order_invariant h⟩

/-- C1 counterexample: permuting the *entries* of a tool configuration list
does register as a diff — with two distinct single-key configurations, the
swapped list is a permutation of the original yet `toolsChanged` is true. -/
theorem c1_counterexample_list_permutation_is_diff :
    ([JVal.obj [("toolId", .str "2fff509d-273f-414e-91ff-aa933435a545")],
      JVal.obj [("toolId", .str "56294126-5a7d-4948-b67d-3b7e13d55ea7")]] : List JVal).Perm
      [JVal.obj [("toolId", .str "56294126-5a7d-4948-b67d-3b7e13d55ea7")],
       JVal.obj [("toolId", .str "2fff509d-273f-414e-91ff-aa933435a545")]] ∧
    toolsChanged
      [JVal.obj [("toolId", .str "2fff509d-273f-414e-91ff-aa933435a545")],
       JVal.obj [("toolId", .str "56294126-5a7d-4948-b67d-3b7e13d55ea7")]]
      [JVal.obj [("toolId", .str "56294126-5a7d-4948-b67d-3b7e13d55ea7")],
       JVal.obj [("toolId", .str "2fff509d-273f-414e-91ff-aa933435a545")]] = true :=
  ⟨List.Perm.swap _ _ _, by decide⟩

/-- The client row used for concrete evaluations: prompt referencing
`coldTransfer`, no corpus configured. -/
def clientColdTransfer : ClientData :=
  ⟨some "client-1", some "Test Clinic", some "Use coldTransfer if needed",
   none, some "agent-1", none, none⟩

/-- C2 (code bug).  `get_tools_for_client` iterates the Python set
`enabled_tools`; both orders below are legitimate iteration orders of the
same set for the same client record, yet the emitted configuration lists
differ.  Since CPython randomizes string hashing per process, the set order
is not stable across runs, contradicting the specified catalog-order
determinism. -/
theorem c2_builder_output_depends_on_set_order :
    validEnum clientColdTransfer
      ["transferFromAiTriageWithMetadata", "hangUp", "coldTransfer"] ∧
    validEnum clientColdTransfer
      ["coldTransfer", "transferFromAiTriageWithMetadata", "hangUp"] ∧
    get_tools_for_client clientColdTransfer
      ["transferFromAiTriageWithMetadata", "hangUp", "coldTransfer"] ≠
    get_tools_for_client clientColdTransfer
      ["coldTransfer", "transferFromAiTriageWithMetadata", "hangUp"] := by
  refine ⟨?_, ?_, ?_⟩ <;> decide

/-- C4: the Prompt Tool Detector returns exactly the catalog names occurring
as a literal substring of the prompt — the result is a subset of the catalog
names, and a name is in the result iff it is a catalog name that occurs
contiguously in the prompt text.  (`detect_tools_from_prompt` is a pure
function of the prompt, hence deterministic.) -/
theorem c4_detector_exactly_substring_catalog_names (prompt : String) :
    (∀ n ∈ detect_tools_from_prompt prompt, n ∈ ULTRAVOX_TOOLS.map Prod.fst) ∧
    (∀ n, n ∈ detect_tools_from_prompt prompt ↔
      (n ∈ ULTRAVOX_TOOLS.map Prod.fst ∧ occursIn n.data prompt.data)) := by
  constructor
  · intro n hn
    rw [detect_tools_from_prompt, List.mem_toFinset, List.mem_filter] at hn
    exact hn.1
  · intro n
    rw [detect_tools_from_prompt, List.mem_toFinset, List.mem_filter,
      strContains, containsCh_iff]

/-- The tool id carried by an emitted tool configuration dict. -/
def toolIdOf : JVal → Option String
  | .obj d => (d.lookup "toolId").bind fun v =>
      match v with
      | .str t => some t
      | _ => none
  | _ => none

/-- Does an emitted tool configuration dict carry parameter overrides? -/
def hasOverrides : JVal → Bool
  | .obj d => d.any fun p => p.1 == "parameterOverrides"
  | _ => false

/-- Every member of the builder output comes from a catalog lookup: either a
bare configuration for a non-`queryCorpus` tool, or the parameterized
`queryCorpus` configuration, which requires a truthy `corpus_id`. -/
theorem mem_get_tools_for_client {c : ClientData} {enum : List String} {j : JVal}
    (hj : j ∈ get_tools_for_client c enum) :
    ∃ name tid, ULTRAVOX_TOOLS.lookup name = some tid ∧
      ((name ≠ "queryCorpus" ∧ j = .obj [("toolId", .str tid)]) ∨
       (name = "queryCorpus" ∧ ∃ cid, c.corpus_id = some cid ∧ cid.isEmpty = false ∧
         j = .obj [("toolId", .str tid),
                   ("parameterOverrides", .obj [("corpus_id", .str cid),
                     ("max_results", .num (c.corpus_max_results.getD 5))])])) := by
  rw [get_tools_for_client] at hj
  obtain ⟨name, hmem, hf⟩ := List.mem_filterMap.mp hj
  rw [toolConfigFor] at hf
  cases hlk : ULTRAVOX_TOOLS.lookup name with
  | none =>
      rw [hlk] at hf
      exact absurd hf (by simp)
  | some tid =>
      rw [hlk] at hf
      dsimp only at hf
      by_cases hq : name = "queryCorpus"
      · rw [if_pos hq] at hf
        cases hcid : c.corpus_id with
        | none =>
            rw [hcid] at hf
            exact absurd hf (by simp)
        | some cid =>
            rw [hcid] at hf
            dsimp only at hf
            by_cases hemp : cid.isEmpty = true
            · rw [if_pos hemp] at hf
              exact absurd hf (by simp)
            · rw [if_neg hemp] at hf
              refine ⟨name, tid, hlk, .inr ⟨hq, cid, rfl, ?_, ?_⟩⟩
              · simpa using hemp
              · exact (Option.some.inj hf).symm
      · rw [if_neg hq] at hf
        exact ⟨name, tid, hlk, .inl ⟨hq, (Option.some.inj hf).symm⟩⟩

/-- C5: if the client has no truthy `corpus_id`, the builder never emits the
`queryCorpus` tool (no output entry carries its tool id, and none carries
parameter overrides); and in general a configuration with parameter
overrides is emitted only when `corpus_id` is present and non-empty, with
both required parameters resolved.  `get_tools_for_client` is a total
function, so this also covers the must-not-raise part of the claim. -/
theorem c5_corpus_tool_requires_corpus_id (c : ClientData) (enum : List String) :
    (truthyS c.corpus_id = false →
      ∀ j ∈ get_tools_for_client c enum,
        toolIdOf j ≠ some queryCorpusId ∧ hasOverrides j = false) ∧
    (∀ j ∈ get_tools_for_client c enum, hasOverrides j = true →
      ∃ cid, c.corpus_id = some cid ∧ cid.isEmpty = false ∧
        j = .obj [("toolId", .str queryCorpusId),
                  ("parameterOverrides", .obj [("corpus_id", .str cid),
                    ("max_results", .num (c.corpus_max_results.getD 5))])]) := by
  constructor
  · intro hfalse j hj
    obtain ⟨name, tid, hlk, hcase⟩ := mem_get_tools_for_client hj
    rcases hcase with ⟨hq, rfl⟩ | ⟨hq, cid, hcid, hemp, rfl⟩
    · constructor
      · have hne := catalog_id_ne_queryCorpus hlk hq
        simp [toolIdOf, List.lookup, hne]
      · simp [hasOverrides]
    · rw [hcid] at hfalse
      simp [truthyS, hemp] at hfalse
  · intro j hj hov
    obtain ⟨name, tid, hlk, hcase⟩ := mem_get_tools_for_client hj
    rcases hcase with ⟨hq, rfl⟩ | ⟨hq, cid, hcid, hemp, rfl⟩
    · simp [hasOverrides] at hov
    · subst hq
      have htid : tid = queryCorpusId := by
        have hqc : ULTRAVOX_TOOLS.lookup "queryCorpus" = some queryCorpusId := by decide
        exact (Option.some.inj (hqc.symm.trans hlk)).symm
      subst htid
      exact ⟨cid, hcid, hemp, rfl⟩

/-- C5 witness: concrete client whose prompt references `queryCorpus` but
with no corpus id — the single emitted configuration is `hangUp`, with no
overrides and not the `queryCorpus` id. -/
theorem c5_corpus_tool_requires_corpus_id_witness :
    truthyS (ClientData.mk (some "client-2") (some "Clinic B")
        (some "Use queryCorpus to answer") none (some "agent-2") none none).corpus_id = false ∧
    toolIdOf (JVal.obj [("toolId", .str "56294126-5a7d-4948-b67d-3b7e13d55ea7")]) ≠
      some queryCorpusId ∧
    hasOverrides (JVal.obj [("toolId", .str "56294126-5a7d-4948-b67d-3b7e13d55ea7")]) = false := by
  have h := (c5_corpus_tool_requires_corpus_id
    (ClientData.mk (some "client-2") (some "Clinic B")
      (some "Use queryCorpus to answer") none (some "agent-2") none none)
    ["queryCorpus", "hangUp"]).1 (by decide)
  have hmem : (JVal.obj [("toolId", .str "56294126-5a7d-4948-b67d-3b7e13d55ea7")]) ∈
      get_tools_for_client
        (ClientData.mk (some "client-2") (some "Clinic B")
          (some "Use queryCorpus to answer") none (some "agent-2") none none)
        ["queryCorpus", "hangUp"] := by decide
  exact ⟨by decide, (h _ hmem).1, (h _ hmem).2⟩

/-- C6: when the platform reports not-found for the configured agent id, the
record outcome is `error("agent_not_found")` and no write call is made to
either collaborator (in particular no storage write).  In `sync_agent` the
not-found branch returns before any comparison is computed. -/
theorem c6_not_found_is_error_without_writes (c : ClientData) (dry_run : Bool)
    (enum : List String) (patchOk dbOk : Bool)
    (h1 : truthyS c.ultravox_agent_id = true)
    (h2 : truthyS c.system_prompt = true) :
    sync_agent c dry_run enum .notFound patchOk dbOk =
      ⟨.error "agent_not_found", [], []⟩ := by
  rw [sync_agent]
  simp [h1, h2]

/-- C6 witness. -/
theorem c6_not_found_is_error_without_writes_witness :
    sync_agent clientColdTransfer false
      ["transferFromAiTriageWithMetadata", "hangUp", "coldTransfer"]
      .notFound true true = ⟨.error "agent_not_found", [], []⟩ :=
  c6_not_found_is_error_without_writes clientColdTransfer false
    ["transferFromAiTriageWithMetadata", "hangUp", "coldTransfer"] true true
    (by decide) (by decide)

/-- C7: in dry-run mode, whenever at least one of the three diffs (prompt,
voice, tools) holds, the outcome is `would_update` and the trace of write
calls is empty: neither the platform nor storage is written. -/
theorem c7_dry_run_diff_no_writes (c : ClientData) (enum : List String)
    (a : RemoteAgent) (patchOk dbOk : Bool)
    (h1 : truthyS c.ultravox_agent_id = true)
    (h2 : truthyS c.system_prompt = true)
    (hdiff : (a.systemPrompt.getD "" != c.system_prompt.getD "") = true ∨
             (a.voice.getD "" != pyOr c.agent_voice "Jessica") = true ∨
             toolsChanged (a.selectedTools.getD []) (get_tools_for_client c enum) = true) :
    sync_agent c true enum (.ok a) patchOk dbOk = ⟨.would_update, [], []⟩ := by
  rw [sync_agent]
  rcases hdiff with hd | hd | hd <;> simp [h1, h2, hd]

/-- C7 witness: a remote agent with a different prompt, in dry-run. -/
theorem c7_dry_run_diff_no_writes_witness :
    sync_agent clientColdTransfer true
      ["transferFromAiTriageWithMetadata", "hangUp", "coldTransfer"]
      (.ok ⟨some "old prompt", some "Jessica", some []⟩) true true =
      ⟨.would_update, [], []⟩ :=
  c7_dry_run_diff_no_writes clientColdTransfer
    ["transferFromAiTriageWithMetadata", "hangUp", "coldTransfer"]
    ⟨some "old prompt", some "Jessica", some []⟩ true true
    (by decide) (by decide) (.inl (by decide))

/-- C8: when the remote PATCH succeeds but the Supabase sync-status
write-back fails, the failure surfaces only as a distinct warning; the
record's status is still `success`, and the batch tally counts it under
successes with zero errors. -/
theorem c8_db_writeback_failure_is_warning_only (c : ClientData)
    (enum : List String) (a : RemoteAgent)
    (h1 : truthyS c.ultravox_agent_id = true)
    (h2 : truthyS c.system_prompt = true)
    (hid : truthyS c.id = true)
    (hdiff : (a.systemPrompt.getD "" != c.system_prompt.getD "") = true ∨
             (a.voice.getD "" != pyOr c.agent_voice "Jessica") = true ∨
             toolsChanged (a.selectedTools.getD []) (get_tools_for_client c enum) = true) :
    (sync_agent c false enum (.ok a) true false).status = .success ∧
    (sync_agent c false enum (.ok a) true false).warnings =
      ["Synced to Ultravox but failed to update database"] ∧
    (tally [(sync_agent c false enum (.ok a) true false).status]).errors = 0 ∧
    (tally [(sync_agent c false enum (.ok a) true false).status]).success = 1 := by
  have hres : (sync_agent c false enum (.ok a) true false).status = .success ∧
      (sync_agent c false enum (.ok a) true false).warnings =
        ["Synced to Ultravox but failed to update database"] := by
    rw [sync_agent]
    rcases hdiff with hd | hd | hd <;> simp [h1, h2, hid, hd]
  refine ⟨hres.1, hres.2, ?_, ?_⟩ <;> rw [hres.1] <;> rfl

/-- C8 witness. -/
theorem c8_db_writeback_failure_is_warning_only_witness :
    (sync_agent clientColdTransfer false
      ["transferFromAiTriageWithMetadata", "hangUp", "coldTransfer"]
      (.ok ⟨some "old prompt", some "Jessica", some []⟩) true false).status = .success ∧
    (sync_agent clientColdTransfer false
      ["transferFromAiTriageWithMetadata", "hangUp", "coldTransfer"]
      (.ok ⟨some "old prompt", some "Jessica", some []⟩) true false).warnings =
      ["Synced to Ultravox but failed to update database"] :=
  ⟨(c8_db_writeback_failure_is_warning_only clientColdTransfer
      ["transferFromAiTriageWithMetadata", "hangUp", "coldTransfer"]
      ⟨some "old prompt", some "Jessica", some []⟩
      (by decide) (by decide) (by decide) (.inl (by decide))).1,
   (c8_db_writeback_failure_is_warning_only clientColdTransfer
      ["transferFromAiTriageWithMetadata", "hangUp", "coldTransfer"]
      ⟨some "old prompt", some "Jessica", some []⟩
      (by decide) (by decide) (by decide) (.inl (by decide))).2.1⟩

/-- C3: idempotence of the Sync Decision Engine.  If a non-dry-run pass on a
record with a truthy agent id and prompt ends in `success` (it pushed the
desired prompt and voice, plus the desired tool list when the tools diff
held), then a second pass against a remote state reflecting that write —
prompt and voice as pushed, tools as pushed or untouched when not pushed —
reports `already_synced`. -/
theorem c3_second_run_already_synced (c : ClientData) (enum : List String)
    (a1 : RemoteAgent) (dbOk patchOk2 dbOk2 : Bool)
    (h1 : truthyS c.ultravox_agent_id = true)
    (h2 : truthyS c.system_prompt = true)
    (h3 : (sync_agent c false enum (.ok a1) true dbOk).status = .success) :
    (sync_agent c false enum
      (.ok ⟨some (c.system_prompt.getD ""), some (pyOr c.agent_voice "Jessica"),
        some (if toolsChanged (a1.selectedTools.getD []) (get_tools_for_client c enum)
              then get_tools_for_client c enum
              else a1.selectedTools.getD [])⟩)
      patchOk2 dbOk2).status = .already_synced := by
  clear h3
  rw [sync_agent]
  by_cases htc : toolsChanged (a1.selectedTools.getD []) (get_tools_for_client c enum) = true
  · simp [h1, h2, htc, toolsChanged_self]
  · have htc2 : toolsChanged (a1.selectedTools.getD []) (get_tools_for_client c enum) = false :=
      Bool.eq_false_iff.mpr htc
    simp [h1, h2, htc2]

/-- C3 witness: after a first successful run on the `coldTransfer` client
against an out-of-date remote agent, the second run is `already_synced`. -/
theorem c3_second_run_already_synced_witness :
    (sync_agent clientColdTransfer false
      ["transferFromAiTriageWithMetadata", "hangUp", "coldTransfer"]
      (.ok ⟨some (clientColdTransfer.system_prompt.getD ""),
            some (pyOr clientColdTransfer.agent_voice "Jessica"),
            some (if toolsChanged
                ((RemoteAgent.mk (some "old prompt") (some "Jessica") (some [])).selectedTools.getD [])
                (get_tools_for_client clientColdTransfer
                  ["transferFromAiTriageWithMetadata", "hangUp", "coldTransfer"])
              then get_tools_for_client clientColdTransfer
                ["transferFromAiTriageWithMetadata", "hangUp", "coldTransfer"]
              else (RemoteAgent.mk (some "old prompt") (some "Jessica") (some [])).selectedTools.getD [])⟩)
      true true).status = .already_synced :=
  c3_second_run_already_synced clientColdTransfer
    ["transferFromAiTriageWithMetadata", "hangUp", "coldTransfer"]
    (RemoteAgent.mk (some "old prompt") (some "Jessica") (some [])) true true true
    (by decide) (by decide) (by decide)

theorem foldl_tallyStep_errors : ∀ (l : List SyncStatus) (acc : Counts),
    (l.foldl tallyStep acc).errors = acc.errors + l.countP isErrorStatus
  | [], acc => by simp
  | s :: t, acc => by
      rw [List.foldl_cons, foldl_tallyStep_errors t (tallyStep acc s), List.countP_cons]
      cases s <;> simp [tallyStep, isErrorStatus] <;> omega

theorem tally_errors_eq (l : List SyncStatus) :
    (tally l).errors = l.countP isErrorStatus := by
  simp [tally, foldl_tallyStep_errors]

theorem exit_one_iff (l : List SyncStatus) :
    (if (tally l).errors = 0 then 0 else 1) = 1 ↔ ∃ s ∈ l, isErrorStatus s = true := by
  rw [tally_errors_eq]
  by_cases hz : l.countP isErrorStatus = 0
  · rw [if_pos hz]
    constructor
    · intro h
      exact absurd h (by decide)
    · rintro ⟨s, hs, he⟩
      exact absurd he (List.countP_eq_zero.mp hz s hs)
  · rw [if_neg hz]
    exact ⟨fun _ => List.countP_pos_iff.mp (Nat.pos_of_ne_zero hz), fun _ => rfl⟩

/-- C9: with a non-empty candidate set, the batch processes every record and
exits 1 exactly when at least one per-record `error` outcome occurred; an
empty candidate set exits 1 with zero processed records. -/
theorem c9_exit_failure_iff_error_outcome (clients : List ClientData)
    (dry_run : Bool) (env : ClientData → RecordEnv) :
    (clients = [] → mainRun clients dry_run env = (1, 0)) ∧
    (clients ≠ [] →
      (mainRun clients dry_run env).2 = clients.length ∧
      ((mainRun clients dry_run env).1 = 1 ↔
        ∃ c ∈ clients,
          isErrorStatus (sync_agent c dry_run (env c).enum (env c).fetch
            (env c).patchOk (env c).dbOk).status = true)) := by
  constructor
  · rintro rfl
    rfl
  · intro hne
    have hempty : clients.isEmpty = false := by
      cases clients with
      | nil => exact absurd rfl hne
      | cons _ _ => rfl
    refine ⟨by simp [mainRun, hempty], ?_⟩
    have hred : (mainRun clients dry_run env).1 =
        (if (tally (clients.map fun c =>
          (sync_agent c dry_run (env c).enum (env c).fetch
            (env c).patchOk (env c).dbOk).status)).errors = 0 then 0 else 1) := by
      simp [mainRun, hempty]
    rw [hred, exit_one_iff]
    constructor
    · rintro ⟨s, hs, he⟩
      obtain ⟨c, hc, rfl⟩ := List.mem_map.mp hs
      exact ⟨c, hc, he⟩
    · rintro ⟨c, hc, he⟩
      exact ⟨_, List.mem_map_of_mem _ hc, he⟩

/-- C9 witness: the empty candidate set exits 1 with zero processed records,
and a singleton batch whose record hits a 404 exits 1. -/
theorem c9_exit_failure_iff_error_outcome_witness :
    mainRun [] false (fun _ => ⟨[], .notFound, true, true⟩) = (1, 0) ∧
    ((mainRun [clientColdTransfer] false (fun _ => ⟨[], .notFound, true, true⟩)).1 = 1 ↔
      ∃ c ∈ [clientColdTransfer],
        isErrorStatus (sync_agent c false
          ((fun _ : ClientData => RecordEnv.mk [] .notFound true true) c).enum
          ((fun _ : ClientData => RecordEnv.mk [] .notFound true true) c).fetch
          ((fun _ : ClientData => RecordEnv.mk [] .notFound true true) c).patchOk
          ((fun _ : ClientData => RecordEnv.mk [] .notFound true true) c).dbOk).status = true) :=
  ⟨(c9_exit_failure_iff_error_outcome [] false (fun _ => ⟨[], .notFound, true, true⟩)).1 rfl,
   ((c9_exit_failure_iff_error_outcome [clientColdTransfer] false
      (fun _ => ⟨[], .notFound, true, true⟩)).2 (by decide)).2⟩

/-- C10: multiple candidate-selection filters are not rejected as mutually
exclusive; exactly one is applied by fixed precedence — agent id first, else
client name, else client id — and the lower-precedence arguments are
ignored. -/
theorem c10_filter_precedence (agent_id client_name client_id : Option String) :
    (truthyS agent_id = true →
      selectFilter agent_id client_name client_id =
        some (.byAgentId (agent_id.getD ""))) ∧
    (truthyS agent_id = false → truthyS client_name = true →
      selectFilter agent_id client_name client_id =
        some (.byClientName (client_name.getD ""))) ∧
    (truthyS agent_id = false → truthyS client_name = false → truthyS client_id = true →
      selectFilter agent_id client_name client_id =
        some (.byClientId (client_id.getD ""))) ∧
    (truthyS agent_id = false → truthyS client_name = false → truthyS client_id = false →
      selectFilter agent_id client_name client_id = none) := by
  refine ⟨?_, ?_, ?_, ?_⟩
  · intro ha
    simp [selectFilter, ha]
  · intro ha hn
    simp [selectFilter, ha, hn]
  · intro ha hn hi
    simp [selectFilter, ha, hn, hi]
  · intro ha hn hi
    simp [selectFilter, ha, hn, hi]

/-- C10 witness: with all three filters supplied, only the agent-id filter
is applied. -/
theorem c10_filter_precedence_witness :
    selectFilter (some "agent-9") (some "Humber Vet") (some "client-9") =
      some (.byAgentId "agent-9") :=
  (c10_filter_precedence (some "agent-9") (some "Humber Vet") (some "client-9")).1 (by decide)

/-- C4 witness: `coldTransfer` is detected in a prompt containing it, via
the characterization applied at a concrete prompt and name. -/
theorem c4_detector_exactly_substring_catalog_names_witness :
    "coldTransfer" ∈ detect_tools_from_prompt "Use coldTransfer if needed" :=
  ((c4_detector_exactly_substring_catalog_names "Use coldTransfer if needed").2
    "coldTransfer").mpr ⟨by decide, "Use ".data, " if needed".data, by decide⟩
